import Mathlib

/-!
Verification development for the photo-sync repository.

This file is a shallow embedding of the repository's album-resolution and
incremental-sync decision engine, translated from the Python source:

* `src/photo_sync/path.py`    — slugify, output-path rendering, traversal check
* `src/photo_sync/mapper.py`  — album-name resolution (explicit / pattern / unmatched)
* `src/photo_sync/state.py`   — the SQLite-backed sync-state ledger
* `src/photo_sync/cli/sync.py` — the per-photo sync decision and the run loop
* `src/photo_sync/exceptions.py` — the error hierarchy
* `src/photo_sync/exporter.py` — checksum computation and export (abstracted)

Strings are modelled over Lean `Char` lists with the ASCII fragment of
Python's character classes (`\w`, `\s`, `str.lower`); the SQLite connection
is modelled as a committed database plus a list of pending statements, with
fault-injection flags standing for the I/O errors SQLite can raise on any
statement.  Filesystem contents are abstracted into per-photo checksum
fields, and the stdlib collaborators (`re.match`, `str.format`, Pillow)
are modelled where a claim depends on their behaviour, as documented on
each definition.
-/

/-! ### Error model

`src/photo_sync/exceptions.py`: `PhotoSyncError` is the base of `PathError`,
`StateError`, `ExportError`, `AlbumNotFoundError` (via `ProviderError`).
`sqlite3.Error` and `re.error` are Python-stdlib exceptions that do NOT
derive from `PhotoSyncError`; they get their own constructors so that the
embedding can distinguish a raw database/regex error from the repository's
own error types. -/

inductive PyErr where
  | pathError (msg : String)
  | stateError (msg : String)
  | exportError (msg : String)
  | albumNotFound (msg : String)
  | sqliteError (msg : String)
  | reError (msg : String)
deriving Repr, DecidableEq

/-- True exactly for the constructors whose Python class derives
`PhotoSyncError` (`except PhotoSyncError` catches them). -/
def PyErr.isPhotoSyncError : PyErr → Bool
  | .pathError _ => true
  | .stateError _ => true
  | .exportError _ => true
  | .albumNotFound _ => true
  | .sqliteError _ => false
  | .reError _ => false

/-- True exactly for `PathError`. -/
def PyErr.isPathError : PyErr → Bool
  | .pathError _ => true
  | _ => false

/-- True exactly for `StateError`. -/
def PyErr.isStateError : PyErr → Bool
  | .stateError _ => true
  | _ => false

/-- True exactly for a raw `sqlite3.Error`. -/
def PyErr.isSqliteError : PyErr → Bool
  | .sqliteError _ => true
  | _ => false

/-! ### `path.py`: slugify

`slugify` (path.py lines 14-19):
```
text = text.lower().strip()
text = re.sub(r"[^\w\s-]", "", text)
text = re.sub(r"[\s_]+", "-", text)
return re.sub(r"-+", "-", text).strip("-")
```
Characters are modelled in the ASCII fragment of Python's Unicode classes:
`\w` = alphanumeric or underscore, `\s` = whitespace, `str.lower` =
`Char.toLower` (basic-latin lowercasing). -/

/-- Python `\w` (ASCII fragment): letters, digits, underscore. -/
def isPyWord (c : Char) : Bool :=
  c.isAlphanum || c == '_'

/-- Python `\s` (ASCII fragment): whitespace. -/
def isPySpace (c : Char) : Bool :=
  c.isWhitespace

/-- A character kept by `re.sub(r"[^\w\s-]", "", text)`. -/
def keepChar (c : Char) : Bool :=
  isPyWord c || isPySpace c || c == '-'

/-- A character matched by the class `[\s_]`. -/
def isSpaceU (c : Char) : Bool :=
  isPySpace c || c == '_'

/-- A hyphen, the class `[-]` of `re.sub(r"-+", "-", ...)`. -/
def isHyph (c : Char) : Bool :=
  c == '-'

/-- Worker for `re.sub(cls+, r, text)`: replaces every maximal run of
characters satisfying `p` by the single character `r`.  The flag records
whether the scanner is currently inside such a run. -/
def squashGo (p : Char → Bool) (r : Char) : Bool → List Char → List Char
  | _, [] => []
  | inRun, c :: cs =>
    if p c then
      if inRun then squashGo p r true cs
      else r :: squashGo p r true cs
    else c :: squashGo p r false cs

/-- `re.sub` of a one-character-class `+` pattern by a single character. -/
def squash (p : Char → Bool) (r : Char) (l : List Char) : List Char :=
  squashGo p r false l

/-- Python `str.strip` with the character class `p`: drop matching
characters from both ends. -/
def trimBoth (p : Char → Bool) (l : List Char) : List Char :=
  ((l.dropWhile p).reverse.dropWhile p).reverse

/-- `slugify` from path.py on character lists, step for step:
lowercase and strip, drop characters outside `[\w\s-]`, replace `[\s_]+`
runs by a hyphen, collapse hyphen runs, strip hyphens. -/
def slugifyList (l : List Char) : List Char :=
  let t1 := trimBoth isPySpace (l.map Char.toLower)
  let t2 := t1.filter keepChar
  let t3 := squash isSpaceU '-' t2
  trimBoth isHyph (squash isHyph '-' t3)

/-- `slugify(text)` from path.py lines 14-19. -/
def slugify (s : String) : String :=
  ⟨slugifyList s.data⟩

/-! ### `path.py`: output-path rendering -/

/-- The two-character substring check `".." in rendered`. -/
def hasDD : List Char → Bool
  | a :: b :: t => (a == '.' && b == '.') || hasDD (b :: t)
  | _ => false

/-- `".." in s` on strings. -/
def hasDotDot (s : String) : Bool :=
  hasDD s.data

/-- The value substituted for a format field name: `str.format` with the
keyword arguments `category`, `album_slug`, `filename`.  An unknown field
name is kept verbatim (Python would raise `KeyError`; no claim exercises
an unknown field, and keeping it verbatim never removes a `..`). -/
def fieldValue (category album_slug filename : List Char) (name : List Char) : List Char :=
  if name = "category".data then category
  else if name = "album_slug".data then album_slug
  else if name = "filename".data then filename
  else '{' :: name ++ ['}']

/-- `pattern.format(category=..., album_slug=..., filename=...)` as a
one-pass scanner: outside a field (`acc = none`) characters are copied and
`{` opens a field; inside a field (`acc = some cs`) characters accumulate
(reversed) until `}` substitutes the field's value.  An unterminated `{`
is kept verbatim and `{{`/`}}` escapes are not modelled (Python raises
`ValueError` on the former; no claim exercises either). -/
def substGo (category album_slug filename : List Char) :
    Option (List Char) → List Char → List Char
  | none, [] => []
  | none, '{' :: rest => substGo category album_slug filename (some []) rest
  | none, c :: rest => c :: substGo category album_slug filename none rest
  | some acc, [] => '{' :: acc.reverse
  | some acc, '}' :: rest =>
    fieldValue category album_slug filename acc.reverse ++
      substGo category album_slug filename none rest
  | some acc, c :: rest => substGo category album_slug filename (some (c :: acc)) rest

/-- `str.format` on strings, for the three placeholders of the output
path template. -/
def pyFormat (pattern category album_slug filename : String) : String :=
  ⟨substGo category.data album_slug.data filename.data none pattern.data⟩

/-- `render_output_path(pattern=, category=, album_slug=, filename=)` from
path.py lines 22-41: format the template, then reject the result when it
contains `..` anywhere. -/
def render_output_path (pattern category album_slug filename : String) :
    Except PyErr String :=
  let rendered := pyFormat pattern category album_slug filename
  if hasDotDot rendered then
    .error (.pathError ("Path traversal detected in rendered path: " ++ rendered))
  else
    .ok rendered

/-- `resolve_safe_path(base, relative)` from path.py lines 44-53, modelled
as the plain join `base / relative`: the source canonicalizes through the
filesystem (`Path.resolve`, following symlinks) and raises `PathError` when
the result escapes `base`.  Filesystem canonicalization is not representable
in a pure embedding; every claim in this development evaluates it only on a
relative path already free of `..` under a symlink-free base, where the
source's canonical result is the join and no error is raised. -/
def resolve_safe_path (base relative : String) : String :=
  base ++ "/" ++ relative

/-! ### `config.py`: the configuration fragment the core consumes

Python 3.7+ `dict` preserves insertion order, so the `album_mappings` and
`album_patterns` dictionaries are modelled as association lists in
declaration order.  `load_config` (config.py lines 134-136) takes
`sync.albums` and `sync.patterns` from the parsed TOML without compiling
or otherwise validating the pattern strings. -/

structure AlbumMapping where
  category : String
  slug : String
deriving Repr, DecidableEq

structure Config where
  output_pattern : String
  output_base : String
  repo_path : String
  album_mappings : List (String × AlbumMapping)
  album_patterns : List (String × String)
deriving Repr

/-- Python `album_name in config.album_mappings` /
`config.album_mappings[album_name]` on the ordered-dict model. -/
def lookupMapping (ms : List (String × AlbumMapping)) (name : String) :
    Option AlbumMapping :=
  (ms.find? (fun kv => kv.1 == name)).map (·.2)

/-! ### `mapper.py`: album resolution

`re.match(pattern, album_name)` is Python-stdlib regex matching, anchored
at position 0; it raises `re.error` when the pattern does not compile.
The embedding abstracts it as a parameter
`m : String → String → Except PyErr Bool` (pattern, album name); the
resolution algorithm is translated verbatim around it, propagating a
matcher error exactly where the Python exception would propagate. -/

structure ResolvedMapping where
  album_name : String
  category : String
  slug : String
  source : String
deriving Repr, DecidableEq

/-- The pattern loop of `resolve_album` (mapper.py lines 42-49): iterate
`config.album_patterns.items()` in order, return on the first match,
propagate a matcher error, fall through to the unmatched result. -/
def resolvePatterns (m : String → String → Except PyErr Bool) (album_name : String) :
    List (String × String) → Except PyErr ResolvedMapping
  | [] => .ok ⟨album_name, "", slugify album_name, "unmatched"⟩
  | (pat, category) :: rest =>
    match m pat album_name with
    | .error e => .error e
    | .ok true => .ok ⟨album_name, category, slugify album_name, "pattern"⟩
    | .ok false => resolvePatterns m album_name rest

/-- `resolve_album(album_name, config)` from mapper.py lines 23-57,
parameterized by the `re.match` collaborator `m`. -/
def resolve_album (m : String → String → Except PyErr Bool) (album_name : String)
    (cfg : Config) : Except PyErr ResolvedMapping :=
  match lookupMapping cfg.album_mappings album_name with
  | some am => .ok ⟨album_name, am.category, am.slug, "explicit"⟩
  | none => resolvePatterns m album_name cfg.album_patterns

/-- Does the first list lead the second (anchored-at-0 literal match)? -/
def matchesAtStart : List Char → List Char → Bool
  | [], _ => true
  | _ :: _, [] => false
  | a :: as, b :: bs => a == b && matchesAtStart as bs

/-- Models Python `re.match` on the pattern fragment this development
instantiates concretely: a pattern that is a plain literal string (no
regex metacharacters) matches iff it occurs at position 0 of the input,
and the pattern `"["` — an unterminated character set — raises `re.error`
when `re.match` compiles it.  Used only to instantiate theorems at
concrete configurations. -/
def reMatchLiteral (pattern s : String) : Except PyErr Bool :=
  if pattern = "[" then .error (.reError "unterminated character set at position 0")
  else .ok (matchesAtStart pattern.data s.data)

/-! ### `state.py`: the SQLite-backed ledger

The database is modelled as the two tables of `_SCHEMA`; a statement
(`Stmt`) is one `execute` call's effect; a connection (`Conn`) is the
committed database plus the list of statements executed since the last
commit — Python's `sqlite3` in its default isolation mode opens an
implicit transaction on the first data-modifying statement and applies the
pending statements on `commit()`; `close()` without commit discards them.
Each `execute`/`commit` takes a fault flag standing for the I/O errors
SQLite can raise on any statement; a failed statement has no effect but
leaves the statements already executed pending, exactly as in `sqlite3`
(the source never rolls back). -/

structure SyncEntry where
  photo_uuid : String
  album_name : String
  category : String
  output_path : String
  checksum : String
  synced_at : String
deriving Repr, DecidableEq

structure AuditEntry where
  timestamp : String
  action : String
  detail : String
deriving Repr, DecidableEq

structure StateDB where
  entries : List SyncEntry
  audit : List AuditEntry
deriving Repr, DecidableEq

/-- The empty database created by `_SCHEMA` on a fresh file. -/
def StateDB.empty : StateDB :=
  ⟨[], []⟩

/-- One data-modifying SQL statement of state.py. -/
inductive Stmt where
  | upsert (e : SyncEntry)
  | deleteEntry (photo_uuid album_name : String)
  | appendAudit (a : AuditEntry)
deriving Repr, DecidableEq

/-- Key equality on the primary key `(photo_uuid, album_name)`. -/
def sameKey (x : SyncEntry) (photo_uuid album_name : String) : Bool :=
  x.photo_uuid == photo_uuid && x.album_name == album_name

/-- The `INSERT ... ON CONFLICT(photo_uuid, album_name) DO UPDATE` of
`record_sync` (state.py lines 91-102): on a fresh key the whole row is
inserted; on conflict the `SET` list overwrites `checksum`, `output_path`
and `synced_at` — and only those columns. -/
def upsertEntry (es : List SyncEntry) (e : SyncEntry) : List SyncEntry :=
  if es.any (fun x => sameKey x e.photo_uuid e.album_name) then
    es.map (fun x =>
      if sameKey x e.photo_uuid e.album_name then
        { x with checksum := e.checksum, output_path := e.output_path,
                 synced_at := e.synced_at }
      else x)
  else es ++ [e]

/-- Effect of one statement on the database. -/
def applyStmt (db : StateDB) : Stmt → StateDB
  | .upsert e => { db with entries := upsertEntry db.entries e }
  | .deleteEntry u a => { db with entries := db.entries.filter (fun x => !sameKey x u a) }
  | .appendAudit a => { db with audit := db.audit ++ [a] }

/-- Effect of a statement list, first statement first. -/
def applyStmts (db : StateDB) (ss : List Stmt) : StateDB :=
  ss.foldl applyStmt db

/-- An open `sqlite3` connection: committed state plus the statements of
the implicit transaction opened since the last commit. -/
structure Conn where
  committed : StateDB
  pending : List Stmt
deriving Repr, DecidableEq

/-- A fresh connection on an empty database. -/
def Conn.init : Conn :=
  ⟨StateDB.empty, []⟩

/-- What `SELECT` statements on this connection observe: committed state
plus the connection's own uncommitted statements. -/
def Conn.view (c : Conn) : StateDB :=
  applyStmts c.committed c.pending

/-- `self._conn.execute(...)` for a data-modifying statement: on success
the statement joins the implicit transaction; on the injected fault the
statement has no effect and `sqlite3.Error` is raised, the transaction
staying open as it was. -/
def Conn.execute (c : Conn) (s : Stmt) (fault : Bool) : Except PyErr Conn :=
  if fault then .error (.sqliteError "disk I/O error")
  else .ok { c with pending := c.pending ++ [s] }

/-- `self._conn.commit()`: apply the pending statements durably. -/
def Conn.commitNow (c : Conn) (fault : Bool) : Except PyErr Conn :=
  if fault then .error (.sqliteError "disk I/O error")
  else .ok ⟨c.view, []⟩

/-- `SyncState.close()` (state.py lines 58-59): closing without commit
discards the pending transaction. -/
def Conn.closeConn (c : Conn) : StateDB :=
  c.committed

/-! ### `state.py`: the `SyncState` methods

Each query method takes one fault flag for its `execute` call and each
mutation takes one per statement plus one for `commit`; the flags model
`sqlite3.Error` being raised by any of them.  Only `__init__` (state.py
lines 48-56) has a `try/except sqlite3.Error` re-raising `StateError`; no
other method catches anything, so their errors propagate raw.  Timestamps
(`datetime.now(timezone.utc).isoformat()`) are passed in as `now`. -/

/-- The `SELECT 1 ... WHERE photo_uuid = ? AND album_name = ?` existence
query, on what this connection observes. -/
def isSyncedView (c : Conn) (photo_uuid album_name : String) : Bool :=
  c.view.entries.any (fun x => sameKey x photo_uuid album_name)

/-- The `SELECT checksum ...` query, on what this connection observes. -/
def getChecksumView (c : Conn) (photo_uuid album_name : String) : Option String :=
  (c.view.entries.find? (fun x => sameKey x photo_uuid album_name)).map (·.checksum)

/-- `SyncState.__init__` (state.py lines 48-56): open the database and run
`_SCHEMA`; a `sqlite3.Error` is caught and re-raised as
`StateError("Failed to open state DB: ...")`. -/
def SyncState.stateInit (fault : Bool) : Except PyErr Conn :=
  match (if fault then .error (.sqliteError "unable to open database file")
         else .ok Conn.init : Except PyErr Conn) with
  | .error (.sqliteError m) => .error (.stateError ("Failed to open state DB: " ++ m))
  | .error e => .error e
  | .ok c => .ok c

/-- `SyncState.is_synced` (state.py lines 67-72): no error handler. -/
def SyncState.is_synced (c : Conn) (photo_uuid album_name : String) (fault : Bool) :
    Except PyErr Bool :=
  if fault then .error (.sqliteError "disk I/O error")
  else .ok (isSyncedView c photo_uuid album_name)

/-- `SyncState.get_checksum` (state.py lines 74-80): no error handler. -/
def SyncState.get_checksum (c : Conn) (photo_uuid album_name : String) (fault : Bool) :
    Except PyErr (Option String) :=
  if fault then .error (.sqliteError "disk I/O error")
  else .ok (getChecksumView c photo_uuid album_name)

/-- `SyncState.record_sync` (state.py lines 82-107): execute the upsert,
execute the audit append, commit; no error handler and no rollback, so a
failure at any step leaves the earlier statements pending on the still-open
connection.  Returns the Python result (`None` or the raised error) paired
with the connection as the call leaves it. -/
def SyncState.record_sync (c : Conn)
    (photo_uuid album_name category output_path checksum now : String)
    (f1 f2 fc : Bool) : Except PyErr Unit × Conn :=
  match c.execute (.upsert ⟨photo_uuid, album_name, category, output_path, checksum, now⟩) f1 with
  | .error e => (.error e, c)
  | .ok c1 =>
    match c1.execute (.appendAudit ⟨now, "sync", photo_uuid ++ " -> " ++ output_path⟩) f2 with
    | .error e => (.error e, c1)
    | .ok c2 =>
      match c2.commitNow fc with
      | .error e => (.error e, c2)
      | .ok c3 => (.ok (), c3)

/-- `SyncState.remove_record` (state.py lines 109-119): delete (a no-op on
an absent key), append the audit entry, commit; no error handler, no
rollback. -/
def SyncState.remove_record (c : Conn) (photo_uuid album_name now : String)
    (f1 f2 fc : Bool) : Except PyErr Unit × Conn :=
  match c.execute (.deleteEntry photo_uuid album_name) f1 with
  | .error e => (.error e, c)
  | .ok c1 =>
    match c1.execute (.appendAudit ⟨now, "remove", photo_uuid ++ " from " ++ album_name⟩) f2 with
    | .error e => (.error e, c1)
    | .ok c2 =>
      match c2.commitNow fc with
      | .error e => (.error e, c2)
      | .ok c3 => (.ok (), c3)

/-- `SyncState.get_all_records` (state.py lines 121-123): all entries,
`ORDER BY synced_at DESC`; no error handler. -/
def SyncState.get_all_records (c : Conn) (fault : Bool) :
    Except PyErr (List SyncEntry) :=
  if fault then .error (.sqliteError "disk I/O error")
  else .ok (c.view.entries.mergeSort (fun a b => b.synced_at ≤ a.synced_at))

/-- `SyncState.count` (state.py lines 132-135): `SELECT COUNT(*)`; no
error handler. -/
def SyncState.count (c : Conn) (fault : Bool) : Except PyErr Nat :=
  if fault then .error (.sqliteError "disk I/O error")
  else .ok c.view.entries.length

/-! ### `cli/sync.py`: the per-photo decision and the run loop

`exporter.py`'s filesystem-dependent collaborators are abstracted into the
photo record: `sourceChecksum` stands for
`compute_checksum(Path(photo.original_path))` — the SHA-256 of the source
file's current bytes — and `exportChecksum` stands for the return value of
`export_photo` — the SHA-256 of the transformed destination file
(exporter.py line 99 returns `compute_checksum(dest_path)`), a function of
the source bytes and the export settings.  A photo whose source file is
unchanged between two runs keeps the same `sourceChecksum` and produces
the same `exportChecksum`. -/

structure Photo where
  uuid : String
  filename : String
  album_name : String
  sourceChecksum : String
  exportChecksum : String
deriving Repr, DecidableEq

/-- The export-and-record tail of `_sync_photo` (sync.py lines 56-76):
honor `dry_run`, otherwise export (obtaining the destination file's
checksum) and `record_sync` it.  The store calls are fault-free here: the
claims about the orchestrator concern its decision logic, and a store
fault would simply propagate through the `match`. -/
def syncExportStep (c : Conn) (photo : Photo) (category relative_path now : String)
    (dry_run : Bool) : Except PyErr ((String × Bool) × Conn) :=
  if dry_run then .ok ((relative_path, true), c)
  else
    let checksum := photo.exportChecksum
    match SyncState.record_sync c photo.uuid photo.album_name category relative_path
        checksum now false false false with
    | (.ok _, c2) => .ok ((relative_path, true), c2)
    | (.error e, _) => .error e

/-- `_sync_photo` (sync.py lines 28-76): render the relative path, resolve
the destination, and unless `force` is set skip the photo when it is
already synced and the checksum of its *source* file equals the *stored*
checksum; otherwise export and record.  Returns
`(relative_path, was_exported)` and the store connection after the call. -/
def sync_photo (c : Conn) (photo : Photo) (category album_slug : String)
    (cfg : Config) (dry_run force : Bool) (now : String) :
    Except PyErr ((String × Bool) × Conn) :=
  match render_output_path cfg.output_pattern category album_slug photo.filename with
  | .error e => .error e
  | .ok relative_path =>
    let _dest_path := resolve_safe_path (cfg.repo_path ++ "/" ++ cfg.output_base) relative_path
    if !force && isSyncedView c photo.uuid photo.album_name then
      let old_checksum := getChecksumView c photo.uuid photo.album_name
      let source_checksum := photo.sourceChecksum
      if old_checksum == some source_checksum then
        .ok ((relative_path, false), c)
      else
        syncExportStep c photo category relative_path now dry_run
    else
      syncExportStep c photo category relative_path now dry_run

/-- True exactly for `ExportError`. -/
def PyErr.isExportError : PyErr → Bool
  | .exportError _ => true
  | _ => false

/-- The per-photo loop of `sync` for one album, non-dry-run branch
(sync.py lines 165-185): each photo is synced under
`except (ExportError, PhotoSyncError)`; a caught error increments the
error counter and the loop continues, any other exception propagates.
Returns `(exported, skipped, errors)` counters and the connection. -/
def processPhotos (cfg : Config) (category album_slug : String) (force : Bool)
    (now : String) :
    Conn → Nat → Nat → Nat → List Photo → Except PyErr ((Nat × Nat × Nat) × Conn)
  | c, exported, skipped, errors, [] => .ok ((exported, skipped, errors), c)
  | c, exported, skipped, errors, p :: rest =>
    match sync_photo c p category album_slug cfg false force now with
    | .ok ((_, true), c2) =>
      processPhotos cfg category album_slug force now c2 (exported + 1) skipped errors rest
    | .ok ((_, false), c2) =>
      processPhotos cfg category album_slug force now c2 exported (skipped + 1) errors rest
    | .error e =>
      if e.isExportError || e.isPhotoSyncError then
        processPhotos cfg category album_slug force now c exported skipped (errors + 1) rest
      else .error e


/-! ### Proof-side definitions used by the theorems below -/

/-- Whether an `Except` result is a raised `PathError`. -/
def resultIsPathError (r : Except PyErr String) : Bool :=
  match r with
  | .error e => e.isPathError
  | .ok _ => false

/-- Proof-side characterization of a slug character: lowercase ASCII
letter, digit, or hyphen. -/
def goodChar (c : Char) : Bool :=
  (decide (97 ≤ c.toNat) && decide (c.toNat ≤ 122)) ||
    (decide (48 ≤ c.toNat) && decide (c.toNat ≤ 57)) || c == '-'

/-- No two adjacent hyphens. -/
def HH (a b : Char) : Prop :=
  ¬(a = '-' ∧ b = '-')

instance {e a : Type} [DecidableEq e] [DecidableEq a] : DecidableEq (Except e a) := by
  intro x y
  cases x <;> cases y
  case error.error u v =>
    by_cases h : u = v
    · exact isTrue (by rw [h])
    · exact isFalse (by intro hh; injection hh; exact h (by assumption))
  case ok.ok u v =>
    by_cases h : u = v
    · exact isTrue (by rw [h])
    · exact isFalse (by intro hh; injection hh; exact h (by assumption))
  case error.ok u v => exact isFalse (by intro hh; exact Except.noConfusion hh)
  case ok.error u v => exact isFalse (by intro hh; exact Except.noConfusion hh)

/-- Concrete configuration for evaluating the orchestrator: the default
output template, output base `photos`, repo at `/repo`. -/
def cfgDemo : Config :=
  ⟨"{category}/{album_slug}/{filename}", "photos", "/repo", [], []⟩

/-- A photo whose transform output differs byte-wise from its source (the
normal case — resize and re-encode change the file), so the source
checksum and the exported-file checksum differ. -/
def photoDemo : Photo :=
  ⟨"u1", "IMG_1.jpg", "Album A", "srchash", "exphash"⟩

/-- One `_sync_photo` call on `photoDemo` with `dry_run = false`,
`force = false`. -/
def syncDemoOnce (c : Conn) (now : String) : Except PyErr ((String × Bool) × Conn) :=
  sync_photo c photoDemo "eagles" "album-a" cfgDemo false false now

/-! ## Theorems -/

/-! ### Path rendering: traversal rejection (C7, C10) -/

theorem hasDD_cons (c : Char) {t : List Char} (h : hasDD t = true) :
    hasDD (c :: t) = true := by
  cases t with
  | nil => simp [hasDD] at h
  | cons d ds => simp [hasDD, h]

theorem hasDD_append {m : List Char} (l : List Char) (h : hasDD m = true) :
    hasDD (l ++ m) = true := by
  induction l with
  | nil => simpa using h
  | cons c cs ih => simpa [List.cons_append] using hasDD_cons c ih

/-- C7: for every template pattern, category, album slug and filename,
`render_output_path` fails with a `PathError` (traversal error) whenever
the rendered string contains `..` anywhere, and whenever it returns a
path string that string does not contain `..`. -/
theorem C7_render_traversal_rejection (pattern category album_slug filename : String) :
    (hasDotDot (pyFormat pattern category album_slug filename) = true →
      resultIsPathError (render_output_path pattern category album_slug filename) = true) ∧
    (∀ s, render_output_path pattern category album_slug filename = .ok s →
      hasDotDot s = false) := by
  constructor
  · intro h
    simp [render_output_path, h, resultIsPathError, PyErr.isPathError]
  · intro s hs
    by_cases h : hasDotDot (pyFormat pattern category album_slug filename) = true
    · simp [render_output_path, h] at hs
    · rw [Bool.not_eq_true] at h
      simp [render_output_path, h] at hs
      rw [← hs]
      exact h

/-- Witness for C7: rendering the default template with category
`"../etc"` produces a string containing `..` and fails with a
`PathError`. -/
theorem C7_render_traversal_rejection_witness :
    hasDotDot (pyFormat "{category}/{album_slug}/{filename}" "../etc" "evil" "passwd") = true ∧
    resultIsPathError
      (render_output_path "{category}/{album_slug}/{filename}" "../etc" "evil" "passwd") = true := by
  refine ⟨by decide, ?_⟩
  exact (C7_render_traversal_rejection "{category}/{album_slug}/{filename}" "../etc" "evil"
    "passwd").1 (by decide)

/-- C10: `render_output_path` rejects the two-character substring `..`
even when it is not a parent-directory segment: under the default
template, a filename with consecutive dots such as `"photo..jpg"` raises
`PathError` for every category and album slug, so such photos can never
have an output path rendered. -/
theorem C10_render_rejects_consecutive_dots (category album_slug : String) :
    resultIsPathError (render_output_path "{category}/{album_slug}/{filename}"
      category album_slug "photo..jpg") = true := by
  have h : hasDotDot (pyFormat "{category}/{album_slug}/{filename}"
      category album_slug "photo..jpg") = true := by
    show hasDD (category.data ++ '/' :: (album_slug.data ++ '/' :: "photo..jpg".data)) = true
    exact hasDD_append _ (hasDD_cons _ (hasDD_append _ (hasDD_cons _ (by decide))))
  simp [render_output_path, h, resultIsPathError, PyErr.isPathError]

/-! ### Slugify: determinism, totality, idempotence (C8)

`slugify` is a total function by construction.  Idempotence is proved by
characterizing the image: every output character is a lowercase ASCII
letter, a digit or a hyphen, no two hyphens are adjacent, and neither end
is a hyphen — on such strings every stage of `slugify` is the identity. -/

theorem toNat_ofNat_valid {n : Nat} (h : n.isValidChar) : (Char.ofNat n).toNat = n := by
  simp [Char.ofNat, h, Char.ofNatAux, Char.toNat, UInt32.toNat, BitVec.toNat_ofNatLt]

theorem toLower_toNat_of_upperRange {c : Char} (h1 : 65 ≤ c.toNat) (h2 : c.toNat ≤ 90) :
    (Char.toLower c).toNat = c.toNat + 32 := by
  have hv : (c.toNat + 32).isValidChar := Or.inl (by omega)
  simp only [Char.toLower]
  rw [if_pos ⟨h1, h2⟩]
  exact toNat_ofNat_valid hv

theorem toLower_eq_self_of {c : Char} (h : ¬(65 ≤ c.toNat ∧ c.toNat ≤ 90)) :
    Char.toLower c = c := by
  simp only [Char.toLower]
  rw [if_neg h]

theorem isLower_iff_toNat {c : Char} : c.isLower = true ↔ 97 ≤ c.toNat ∧ c.toNat ≤ 122 := by
  simp only [Char.isLower, Bool.and_eq_true, decide_eq_true_eq, ge_iff_le]
  rw [UInt32.le_def, BitVec.le_def, UInt32.le_def, BitVec.le_def]
  exact Iff.rfl

theorem isUpper_iff_toNat {c : Char} : c.isUpper = true ↔ 65 ≤ c.toNat ∧ c.toNat ≤ 90 := by
  simp only [Char.isUpper, Bool.and_eq_true, decide_eq_true_eq, ge_iff_le]
  rw [UInt32.le_def, BitVec.le_def, UInt32.le_def, BitVec.le_def]
  exact Iff.rfl

theorem isDigit_iff_toNat {c : Char} : c.isDigit = true ↔ 48 ≤ c.toNat ∧ c.toNat ≤ 57 := by
  simp only [Char.isDigit, Bool.and_eq_true, decide_eq_true_eq, ge_iff_le]
  rw [UInt32.le_def, BitVec.le_def, UInt32.le_def, BitVec.le_def]
  exact Iff.rfl

theorem isWhitespace_cases {c : Char} (h : c.isWhitespace = true) :
    c = ' ' ∨ c = '\t' ∨ c = '\r' ∨ c = '\n' := by
  have h1 := h
  simp only [Char.isWhitespace, Bool.or_eq_true, decide_eq_true_eq] at h1
  tauto

theorem goodChar_cases {c : Char} (h : goodChar c = true) :
    (97 ≤ c.toNat ∧ c.toNat ≤ 122) ∨ (48 ≤ c.toNat ∧ c.toNat ≤ 57) ∨ c = '-' := by
  simp only [goodChar, Bool.or_eq_true, Bool.and_eq_true, decide_eq_true_eq,
    beq_iff_eq] at h
  tauto

theorem goodChar_toLower {c : Char} (h : goodChar c = true) : Char.toLower c = c := by
  rcases goodChar_cases h with h1 | h1 | rfl
  · exact toLower_eq_self_of (by omega)
  · exact toLower_eq_self_of (by omega)
  · decide

theorem goodChar_keep {c : Char} (h : goodChar c = true) : keepChar c = true := by
  rcases goodChar_cases h with h1 | h1 | rfl
  · have hl : c.isLower = true := isLower_iff_toNat.mpr h1
    simp [keepChar, isPyWord, Char.isAlphanum, Char.isAlpha, hl]
  · have hd : c.isDigit = true := isDigit_iff_toNat.mpr h1
    simp [keepChar, isPyWord, Char.isAlphanum, hd]
  · simp [keepChar]

theorem goodChar_not_spaceU {c : Char} (h : goodChar c = true) : isSpaceU c = false := by
  have hws : isPySpace c = false := by
    by_contra hh
    rw [Bool.not_eq_false] at hh
    rcases isWhitespace_cases (by simpa [isPySpace] using hh) with rfl | rfl | rfl | rfl <;>
      exact absurd h (by decide)
  have hu : (c == '_') = false := by
    by_contra hh
    rw [Bool.not_eq_false] at hh
    have hc : c = '_' := by simpa using hh
    subst hc
    exact absurd h (by decide)
  simp [isSpaceU, hws, hu]

theorem goodChar_not_space {c : Char} (h : goodChar c = true) : isPySpace c = false := by
  have := goodChar_not_spaceU h
  simp only [isSpaceU, Bool.or_eq_false_iff] at this
  exact this.1

theorem toLower_not_upperRange (c0 : Char) :
    ¬(65 ≤ (Char.toLower c0).toNat ∧ (Char.toLower c0).toNat ≤ 90) := by
  by_cases h : 65 ≤ c0.toNat ∧ c0.toNat ≤ 90
  · rw [toLower_toNat_of_upperRange h.1 h.2]
    omega
  · rw [toLower_eq_self_of h]
    exact h

theorem mem_squashGo {p : Char → Bool} {r : Char} :
    ∀ {b : Bool} {l : List Char} {c : Char}, c ∈ squashGo p r b l →
      c = r ∨ (c ∈ l ∧ p c = false) := by
  intro b l
  induction l generalizing b with
  | nil => intro c hc; simp [squashGo] at hc
  | cons d ds ih =>
    intro c hc
    by_cases hd : p d = true
    · cases b with
      | true =>
        rw [show squashGo p r true (d :: ds) = squashGo p r true ds by
          simp [squashGo, hd]] at hc
        rcases ih hc with h | ⟨h1, h2⟩
        · exact Or.inl h
        · exact Or.inr ⟨List.mem_cons_of_mem _ h1, h2⟩
      | false =>
        rw [show squashGo p r false (d :: ds) = r :: squashGo p r true ds by
          simp [squashGo, hd]] at hc
        rcases List.mem_cons.mp hc with h | hc2
        · exact Or.inl h
        · rcases ih hc2 with h | ⟨h1, h2⟩
          · exact Or.inl h
          · exact Or.inr ⟨List.mem_cons_of_mem _ h1, h2⟩
    · rw [Bool.not_eq_true] at hd
      rw [show squashGo p r b (d :: ds) = d :: squashGo p r false ds by
        simp [squashGo, hd]] at hc
      rcases List.mem_cons.mp hc with h | hc2
      · exact Or.inr ⟨by simp [h], by rw [h]; exact hd⟩
      · rcases ih hc2 with h | ⟨h1, h2⟩
        · exact Or.inl h
        · exact Or.inr ⟨List.mem_cons_of_mem _ h1, h2⟩

theorem mem_trimBoth {p : Char → Bool} {l : List Char} {c : Char}
    (h : c ∈ trimBoth p l) : c ∈ l := by
  simp only [trimBoth, List.mem_reverse] at h
  have h1 := (List.dropWhile_suffix p).mem h
  rw [List.mem_reverse] at h1
  exact (List.dropWhile_suffix p).mem h1

theorem mem_slugifyList_good {l : List Char} : ∀ c ∈ slugifyList l, goodChar c = true := by
  intro c hc
  simp only [slugifyList] at hc
  have h1 := mem_trimBoth hc
  rcases mem_squashGo h1 with rfl | ⟨h2, _⟩
  · decide
  rcases mem_squashGo h2 with rfl | ⟨h3, hSU⟩
  · decide
  have h4 := List.mem_filter.mp h3
  have hkeep := h4.2
  have h5 := mem_trimBoth h4.1
  obtain ⟨c0, _, rfl⟩ := List.mem_map.mp h5
  have hSU2 : isPySpace (Char.toLower c0) = false ∧
      (Char.toLower c0 == '_') = false := by
    constructor
    · simp only [isSpaceU, Bool.or_eq_false_iff] at hSU
      exact hSU.1
    · simp only [isSpaceU, Bool.or_eq_false_iff] at hSU
      exact hSU.2
  have hkeep2 : (isPyWord (Char.toLower c0) = true ∨ isPySpace (Char.toLower c0) = true) ∨
      (Char.toLower c0 == '-') = true := by
    have hk := hkeep
    simp only [keepChar, Bool.or_eq_true] at hk
    exact hk
  rcases hkeep2 with (h6 | h6) | h6
  · have h7 : (Char.toLower c0).isAlphanum = true ∨ (Char.toLower c0 == '_') = true := by
      have := h6
      simp only [isPyWord, Bool.or_eq_true] at this
      exact this
    rcases h7 with h8 | h8
    · have h9 : (Char.toLower c0).isUpper = true ∨ (Char.toLower c0).isLower = true ∨
          (Char.toLower c0).isDigit = true := by
        have := h8
        simp only [Char.isAlphanum, Char.isAlpha, Bool.or_eq_true] at this
        tauto
      rcases h9 with hup | hlo | hdig
      · exact absurd (isUpper_iff_toNat.mp hup) (toLower_not_upperRange c0)
      · have hr := isLower_iff_toNat.mp hlo
        simp only [goodChar, Bool.or_eq_true, Bool.and_eq_true, decide_eq_true_eq]
        exact Or.inl (Or.inl hr)
      · have hr := isDigit_iff_toNat.mp hdig
        simp only [goodChar, Bool.or_eq_true, Bool.and_eq_true, decide_eq_true_eq]
        exact Or.inl (Or.inr hr)
    · rw [h8] at hSU2
      exact absurd hSU2.2 (by simp)
  · rw [h6] at hSU2
    exact absurd hSU2.1 (by simp)
  · simp only [goodChar, Bool.or_eq_true]
    exact Or.inr h6

theorem map_toLower_eq_self {l : List Char} (h : ∀ c ∈ l, Char.toLower c = c) :
    l.map Char.toLower = l := by
  induction l with
  | nil => rfl
  | cons a t ih =>
    simp only [List.map_cons]
    rw [h a (by simp), ih (fun c hc => h c (by simp [hc]))]

theorem head_not_dropWhile (p : Char → Bool) (l : List Char) :
    ∀ b ∈ (l.dropWhile p).head?, p b = false := by
  induction l with
  | nil => intro b hb; simp at hb
  | cons a t ih =>
    intro b hb
    by_cases ha : p a = true
    · rw [List.dropWhile_cons, if_pos ha] at hb
      exact ih b hb
    · rw [Bool.not_eq_true] at ha
      rw [List.dropWhile_cons, if_neg (by simp [ha])] at hb
      simp only [List.head?_cons, Option.mem_def, Option.some.injEq] at hb
      rw [hb] at ha
      exact ha

theorem dropWhile_eq_self_of_head {p : Char → Bool} {l : List Char}
    (h : ∀ b ∈ l.head?, p b = false) : l.dropWhile p = l := by
  cases l with
  | nil => rfl
  | cons a t =>
    have ha := h a (by simp)
    rw [List.dropWhile_cons, if_neg (by simp [ha])]

theorem trimBoth_eq_self_of_all {p : Char → Bool} {l : List Char}
    (h : ∀ c ∈ l, p c = false) : trimBoth p l = l := by
  have h1 : l.dropWhile p = l :=
    dropWhile_eq_self_of_head (fun b hb => h b (List.mem_of_mem_head? hb))
  have h2 : l.reverse.dropWhile p = l.reverse :=
    dropWhile_eq_self_of_head (fun b hb =>
      h b (List.mem_reverse.mp (List.mem_of_mem_head? hb)))
  simp [trimBoth, h1, h2]

theorem squashGo_eq_self_of_not {p : Char → Bool} {r : Char} {l : List Char}
    (h : ∀ c ∈ l, p c = false) : squashGo p r false l = l := by
  induction l with
  | nil => rfl
  | cons a t ih =>
    have ha := h a (by simp)
    simp [squashGo, ha, ih (fun c hc => h c (List.mem_cons_of_mem _ hc))]

theorem chainHH_squash (l : List Char) :
    List.Chain' HH (squashGo isHyph '-' false l) ∧
    List.Chain' HH (squashGo isHyph '-' true l) ∧
    (∀ b ∈ (squashGo isHyph '-' true l).head?, ¬b = '-') := by
  induction l with
  | nil =>
    exact ⟨List.chain'_nil, List.chain'_nil, by intro b hb; simp [squashGo] at hb⟩
  | cons c cs ih =>
    obtain ⟨ih1, ih2, ih3⟩ := ih
    by_cases hc : isHyph c = true
    · have hceq : c = '-' := by simpa [isHyph] using hc
      subst hceq
      refine ⟨?_, ?_, ?_⟩
      · rw [show squashGo isHyph '-' false ('-' :: cs) = '-' :: squashGo isHyph '-' true cs
          from by simp [squashGo, hc]]
        exact List.chain'_cons'.mpr ⟨fun b hb hab => (ih3 b hb) hab.2, ih2⟩
      · rw [show squashGo isHyph '-' true ('-' :: cs) = squashGo isHyph '-' true cs
          from by simp [squashGo, hc]]
        exact ih2
      · rw [show squashGo isHyph '-' true ('-' :: cs) = squashGo isHyph '-' true cs
          from by simp [squashGo, hc]]
        exact ih3
    · rw [Bool.not_eq_true] at hc
      have hcne : ¬c = '-' := by simpa [isHyph] using hc
      refine ⟨?_, ?_, ?_⟩
      · rw [show squashGo isHyph '-' false (c :: cs) = c :: squashGo isHyph '-' false cs
          from by simp [squashGo, hc]]
        exact List.chain'_cons'.mpr ⟨fun b _ hab => hcne hab.1, ih1⟩
      · rw [show squashGo isHyph '-' true (c :: cs) = c :: squashGo isHyph '-' false cs
          from by simp [squashGo, hc]]
        exact List.chain'_cons'.mpr ⟨fun b _ hab => hcne hab.1, ih1⟩
      · rw [show squashGo isHyph '-' true (c :: cs) = c :: squashGo isHyph '-' false cs
          from by simp [squashGo, hc]]
        intro b hb
        simp only [List.head?_cons, Option.mem_def, Option.some.injEq] at hb
        rw [← hb]
        exact hcne

theorem chainHH_reverse {l : List Char} (h : List.Chain' HH l) :
    List.Chain' HH l.reverse := by
  rw [List.chain'_reverse]
  refine h.imp ?_
  intro a b hab hba
  exact hab ⟨hba.2, hba.1⟩

theorem chainHH_trimBoth {p : Char → Bool} {l : List Char} (h : List.Chain' HH l) :
    List.Chain' HH (trimBoth p l) := by
  have h1 : List.Chain' HH (l.dropWhile p) := h.suffix (List.dropWhile_suffix p)
  have h2 := chainHH_reverse h1
  have h3 : List.Chain' HH ((l.dropWhile p).reverse.dropWhile p) :=
    h2.suffix (List.dropWhile_suffix p)
  exact chainHH_reverse h3

theorem squashH_fix_aux (l : List Char) :
    (List.Chain' HH l → squashGo isHyph '-' false l = l) ∧
    ((∀ b ∈ l.head?, ¬b = '-') → List.Chain' HH l → squashGo isHyph '-' true l = l) := by
  induction l with
  | nil => exact ⟨fun _ => rfl, fun _ _ => rfl⟩
  | cons c cs ih =>
    constructor
    · intro h
      obtain ⟨hhead, htail⟩ := List.chain'_cons'.mp h
      by_cases hc : isHyph c = true
      · have hceq : c = '-' := by simpa [isHyph] using hc
        rw [show squashGo isHyph '-' false (c :: cs) = '-' :: squashGo isHyph '-' true cs
          from by simp [squashGo, hc]]
        rw [ih.2 (fun b hb hb2 => (hhead b hb) (by rw [hceq]; exact ⟨rfl, hb2⟩)) htail, hceq]
      · rw [Bool.not_eq_true] at hc
        rw [show squashGo isHyph '-' false (c :: cs) = c :: squashGo isHyph '-' false cs
          from by simp [squashGo, hc]]
        rw [ih.1 htail]
    · intro hh h
      have hcne : ¬c = '-' := hh c (by simp)
      have hc : isHyph c = false := by simp [isHyph, hcne]
      obtain ⟨_, htail⟩ := List.chain'_cons'.mp h
      rw [show squashGo isHyph '-' true (c :: cs) = c :: squashGo isHyph '-' false cs
        from by simp [squashGo, hc]]
      rw [ih.1 htail]

theorem squashH_fix {l : List Char} (h : List.Chain' HH l) :
    squash isHyph '-' l = l :=
  (squashH_fix_aux l).1 h

theorem dropWhile_dropWhile (p : Char → Bool) (l : List Char) :
    (l.dropWhile p).dropWhile p = l.dropWhile p :=
  dropWhile_eq_self_of_head (head_not_dropWhile p l)

theorem trimBoth_idem (p : Char → Bool) (l : List Char) :
    trimBoth p (trimBoth p l) = trimBoth p l := by
  have hA : (trimBoth p l).dropWhile p = trimBoth p l := by
    apply dropWhile_eq_self_of_head
    intro b hb
    simp only [trimBoth, List.head?_reverse] at hb
    cases hve : (l.dropWhile p).reverse.dropWhile p with
    | nil => rw [hve] at hb; simp at hb
    | cons x xs =>
      have hsplit : (l.dropWhile p).reverse.takeWhile p ++
          (l.dropWhile p).reverse.dropWhile p = (l.dropWhile p).reverse :=
        List.takeWhile_append_dropWhile ..
      have hgl : ((l.dropWhile p).reverse.dropWhile p).getLast? =
          (l.dropWhile p).reverse.getLast? := by
        conv_rhs => rw [← hsplit]
        rw [List.getLast?_append_of_ne_nil _ (by rw [hve]; simp)]
      have hglr : (l.dropWhile p).reverse.getLast? = (l.dropWhile p).head? := by simp
      rw [hgl, hglr] at hb
      exact head_not_dropWhile p l b hb
  show ((((trimBoth p l).dropWhile p).reverse).dropWhile p).reverse = trimBoth p l
  rw [hA]
  show (((l.dropWhile p).reverse.dropWhile p).reverse.reverse.dropWhile p).reverse = trimBoth p l
  rw [List.reverse_reverse, dropWhile_dropWhile]
  rfl

theorem slugifyList_idem (l : List Char) :
    slugifyList (slugifyList l) = slugifyList l := by
  have hg : ∀ c ∈ slugifyList l, goodChar c = true := mem_slugifyList_good
  have h1 : (slugifyList l).map Char.toLower = slugifyList l :=
    map_toLower_eq_self (fun c hc => goodChar_toLower (hg c hc))
  have h2 : trimBoth isPySpace (slugifyList l) = slugifyList l :=
    trimBoth_eq_self_of_all (fun c hc => goodChar_not_space (hg c hc))
  have h3 : (slugifyList l).filter keepChar = slugifyList l :=
    List.filter_eq_self.mpr (fun c hc => goodChar_keep (hg c hc))
  have h4 : squash isSpaceU '-' (slugifyList l) = slugifyList l :=
    squashGo_eq_self_of_not (fun c hc => goodChar_not_spaceU (hg c hc))
  have hchain : List.Chain' HH (slugifyList l) := by
    show List.Chain' HH (trimBoth isHyph (squash isHyph '-'
      (squash isSpaceU '-' ((trimBoth isPySpace (l.map Char.toLower)).filter keepChar))))
    exact chainHH_trimBoth (chainHH_squash _).1
  have h5 : squash isHyph '-' (slugifyList l) = slugifyList l := squashH_fix hchain
  have h6 : trimBoth isHyph (slugifyList l) = slugifyList l := by
    show trimBoth isHyph (trimBoth isHyph (squash isHyph '-'
        (squash isSpaceU '-' ((trimBoth isPySpace (l.map Char.toLower)).filter keepChar)))) =
      trimBoth isHyph (squash isHyph '-'
        (squash isSpaceU '-' ((trimBoth isPySpace (l.map Char.toLower)).filter keepChar)))
    exact trimBoth_idem isHyph _
  show trimBoth isHyph (squash isHyph '-' (squash isSpaceU '-'
    ((trimBoth isPySpace ((slugifyList l).map Char.toLower)).filter keepChar))) = slugifyList l
  rw [h1, h2, h3, h4, h5]
  exact h6

/-- C8: slugify is deterministic and total (a pure function by
construction), idempotent on every string — `slugify (slugify x) =
slugify x` — maps the empty string to the empty string, and maps
`"Eagles vs Cowboys 9-7-25"` to `"eagles-vs-cowboys-9-7-25"`. -/
theorem C8_slugify_idempotent_total :
    (∀ x : String, slugify (slugify x) = slugify x) ∧
    slugify "" = "" ∧
    slugify "Eagles vs Cowboys 9-7-25" = "eagles-vs-cowboys-9-7-25" := by
  refine ⟨?_, by decide, by decide⟩
  intro x
  show (⟨slugifyList (slugifyList x.data)⟩ : String) = ⟨slugifyList x.data⟩
  rw [slugifyList_idem]

/-! ### Album resolution (C6, C9) -/

theorem resolvePatterns_skip (m : String → String → Except PyErr Bool) (name : String)
    (pre rest : List (String × String)) (hpre : ∀ q ∈ pre, m q.1 name = .ok false) :
    resolvePatterns m name (pre ++ rest) = resolvePatterns m name rest := by
  induction pre with
  | nil => rfl
  | cons q qs ih =>
    obtain ⟨qp, qc⟩ := q
    have hq := hpre (qp, qc) (List.mem_cons_self _ _)
    simp only [List.cons_append, resolvePatterns, hq]
    exact ih (fun x hx => hpre x (List.mem_cons_of_mem _ hx))

theorem resolvePatterns_all_false (m : String → String → Except PyErr Bool) (name : String)
    (ps : List (String × String)) (h : ∀ q ∈ ps, m q.1 name = .ok false) :
    resolvePatterns m name ps = .ok ⟨name, "", slugify name, "unmatched"⟩ := by
  induction ps with
  | nil => rfl
  | cons q qs ih =>
    obtain ⟨qp, qc⟩ := q
    have hq := h (qp, qc) (List.mem_cons_self _ _)
    simp only [resolvePatterns, hq]
    exact ih (fun x hx => h x (List.mem_cons_of_mem _ hx))

/-- C6: `resolve_album` resolves in strict priority order, for every
`re.match` collaborator `m`: (1) an exact-name explicit mapping returns
its category and verbatim slug (not re-slugified) with source
`"explicit"`; (2) otherwise the first pattern rule in declared order whose
match succeeds returns its category with `slugify albumName` and source
`"pattern"`; (3) otherwise category `""` with `slugify albumName` and
source `"unmatched"`. -/
theorem C6_resolve_priority (m : String → String → Except PyErr Bool)
    (name : String) (cfg : Config) :
    (∀ am, lookupMapping cfg.album_mappings name = some am →
      resolve_album m name cfg = .ok ⟨name, am.category, am.slug, "explicit"⟩) ∧
    (lookupMapping cfg.album_mappings name = none →
      ∀ pre pat cat post, cfg.album_patterns = pre ++ (pat, cat) :: post →
        (∀ q ∈ pre, m q.1 name = .ok false) → m pat name = .ok true →
        resolve_album m name cfg = .ok ⟨name, cat, slugify name, "pattern"⟩) ∧
    (lookupMapping cfg.album_mappings name = none →
      (∀ q ∈ cfg.album_patterns, m q.1 name = .ok false) →
      resolve_album m name cfg = .ok ⟨name, "", slugify name, "unmatched"⟩) := by
  refine ⟨?_, ?_, ?_⟩
  · intro am h
    simp [resolve_album, h]
  · intro h pre pat cat post hsplit hpre hpat
    simp only [resolve_album, h, hsplit]
    rw [resolvePatterns_skip m name pre _ hpre]
    simp [resolvePatterns, hpat]
  · intro h hall
    simp only [resolve_album, h]
    exact resolvePatterns_all_false m name cfg.album_patterns hall

/-- Witness for C6: all three branches at concrete configurations, using
the literal-prefix model of `re.match`.  In the first, the album has both
an explicit mapping and a matching pattern, and the explicit mapping's
category and verbatim slug win. -/
theorem C6_resolve_priority_witness :
    resolve_album reMatchLiteral "Album A"
      ⟨"p", "o", "r", [("Album A", ⟨"eagles", "verbatim-slug"⟩)], [("Album", "patcat")]⟩ =
      .ok ⟨"Album A", "eagles", "verbatim-slug", "explicit"⟩ ∧
    resolve_album reMatchLiteral "Eagles vs Giants 12-1-25"
      ⟨"p", "o", "r", [], [("Zebra", "z"), ("Eagles", "eagles")]⟩ =
      .ok ⟨"Eagles vs Giants 12-1-25", "eagles", slugify "Eagles vs Giants 12-1-25",
        "pattern"⟩ ∧
    resolve_album reMatchLiteral "Random Vacation"
      ⟨"p", "o", "r", [], [("Zebra", "z")]⟩ =
      .ok ⟨"Random Vacation", "", slugify "Random Vacation", "unmatched"⟩ := by
  refine ⟨?_, ?_, ?_⟩
  · exact (C6_resolve_priority reMatchLiteral "Album A" _).1 ⟨"eagles", "verbatim-slug"⟩
      (by decide)
  · exact (C6_resolve_priority reMatchLiteral "Eagles vs Giants 12-1-25" _).2.1 (by decide)
      [("Zebra", "z")] "Eagles" "eagles" [] (by decide) (by decide) (by decide)
  · exact (C6_resolve_priority reMatchLiteral "Random Vacation" _).2.2 (by decide) (by decide)

/-- C9 counterexample: `resolve_album` is not total in the config — with
the invalid regex pattern `"["` among the pattern rules (config loading
never validates or compiles them), `re.match` raises `re.error` and
`resolve_album` propagates it instead of returning a `ResolvedMapping`. -/
theorem C9_counterexample :
    resolve_album reMatchLiteral "Foo" ⟨"p", "o", "r", [], [("[", "x")]⟩ =
      .error (.reError "unterminated character set at position 0") := by
  decide

theorem resolvePatterns_total (m : String → String → Except PyErr Bool) (name : String)
    (ps : List (String × String)) (h : ∀ q ∈ ps, ∃ b, m q.1 name = .ok b) :
    ∃ r, resolvePatterns m name ps = .ok r := by
  induction ps with
  | nil => exact ⟨_, rfl⟩
  | cons q qs ih =>
    obtain ⟨qp, qc⟩ := q
    obtain ⟨b, hb⟩ := h (qp, qc) (List.mem_cons_self _ _)
    cases b with
    | true =>
      refine ⟨⟨name, qc, slugify name, "pattern"⟩, ?_⟩
      simp [resolvePatterns, hb]
    | false =>
      obtain ⟨r, hr⟩ := ih (fun x hx => h x (List.mem_cons_of_mem _ hx))
      exact ⟨r, by simp [resolvePatterns, hb, hr]⟩

/-- C9 (amended): `resolve_album` is pure, and total provided matching
each configured pattern against the album name raises no regex error (all
patterns valid); it then always returns a `ResolvedMapping`.  With an
invalid pattern, the underlying regex error propagates — the pattern
strings are not validated at config load. -/
theorem C9_resolve_total_for_valid_patterns (m : String → String → Except PyErr Bool)
    (name : String) (cfg : Config)
    (h : ∀ q ∈ cfg.album_patterns, ∃ b, m q.1 name = .ok b) :
    ∃ r, resolve_album m name cfg = .ok r := by
  unfold resolve_album
  cases hl : lookupMapping cfg.album_mappings name with
  | some am => exact ⟨_, rfl⟩
  | none => exact resolvePatterns_total m name cfg.album_patterns h

/-- Witness for the amended C9 at a concrete valid-pattern config. -/
theorem C9_resolve_total_for_valid_patterns_witness :
    ∃ r, resolve_album reMatchLiteral "Eagles Game"
      ⟨"p", "o", "r", [], [("Eagles", "eagles")]⟩ = .ok r :=
  C9_resolve_total_for_valid_patterns reMatchLiteral "Eagles Game"
    ⟨"p", "o", "r", [], [("Eagles", "eagles")]⟩ (by
      intro q hq
      rw [List.mem_singleton] at hq
      subst hq
      exact ⟨true, by decide⟩)

/-! ### State upsert (C2) -/

/-- C2 counterexample: `record_sync` on an existing `(photoUuid,
albumName)` key does NOT overwrite `category` — the `ON CONFLICT ... DO
UPDATE SET` list names only `checksum`, `output_path` and `synced_at`.
Recording the key first with category `"eagles"` and then with category
`"sailing"` leaves the stored entry with category `"eagles"`. -/
theorem C2_counterexample :
    ((SyncState.record_sync (SyncState.record_sync Conn.init "u1" "A" "eagles" "p1" "ck1"
        "t1" false false false).2 "u1" "A" "sailing" "p2" "ck2" "t2"
        false false false).2).committed.entries =
      [⟨"u1", "A", "eagles", "p2", "ck2", "t2"⟩] := by
  decide

/-- C2 (amended): re-recording an existing key succeeds, overwrites
`outputPath`, `checksum` and `syncedAt` in place, retains the original
`category`, adds no row — so the key still has exactly one entry and
`count()` is unchanged (remains 1 when that was the only entry). -/
theorem C2_record_sync_upsert (c : Conn) (hp : c.pending = [])
    (u a cat2 path2 ck2 t2 : String)
    (hex : c.committed.entries.any (fun x => sameKey x u a) = true) :
    (SyncState.record_sync c u a cat2 path2 ck2 t2 false false false).1 = .ok () ∧
    ((SyncState.record_sync c u a cat2 path2 ck2 t2 false false false).2).committed.entries =
      c.committed.entries.map (fun x => if sameKey x u a then
        { x with output_path := path2, checksum := ck2, synced_at := t2 } else x) ∧
    ((SyncState.record_sync c u a cat2 path2 ck2 t2
        false false false).2).committed.entries.length =
      c.committed.entries.length := by
  refine ⟨rfl, ?_, ?_⟩
  · simp [SyncState.record_sync, Conn.execute, Conn.commitNow, Conn.view, applyStmts,
      applyStmt, upsertEntry, hp, hex]
  · simp [SyncState.record_sync, Conn.execute, Conn.commitNow, Conn.view, applyStmts,
      applyStmt, upsertEntry, hp, hex]

/-- Witness for the amended C2 on a store holding exactly the one entry
recorded first. -/
theorem C2_record_sync_upsert_witness :
    (SyncState.record_sync (SyncState.record_sync Conn.init "u1" "A" "eagles" "p1" "ck1" "t1"
        false false false).2 "u1" "A" "sailing" "p2" "ck2" "t2" false false false).1 =
      .ok () ∧
    ((SyncState.record_sync (SyncState.record_sync Conn.init "u1" "A" "eagles" "p1" "ck1"
        "t1" false false false).2 "u1" "A" "sailing" "p2" "ck2" "t2"
        false false false).2).committed.entries =
      ((SyncState.record_sync Conn.init "u1" "A" "eagles" "p1" "ck1" "t1"
        false false false).2).committed.entries.map (fun x => if sameKey x "u1" "A" then
          { x with output_path := "p2", checksum := "ck2", synced_at := "t2" } else x) ∧
    ((SyncState.record_sync (SyncState.record_sync Conn.init "u1" "A" "eagles" "p1" "ck1"
        "t1" false false false).2 "u1" "A" "sailing" "p2" "ck2" "t2"
        false false false).2).committed.entries.length =
      ((SyncState.record_sync Conn.init "u1" "A" "eagles" "p1" "ck1" "t1"
        false false false).2).committed.entries.length :=
  C2_record_sync_upsert
    (SyncState.record_sync Conn.init "u1" "A" "eagles" "p1" "ck1" "t1" false false false).2
    (by decide) "u1" "A" "sailing" "p2" "ck2" "t2" (by decide)

/-! ### State error typing (C3) -/

/-- C3 counterexample: a read failure in `get_checksum` surfaces as the
raw `sqlite3.Error`, not as a `StateError` — only the constructor wraps. -/
theorem C3_counterexample :
    SyncState.get_checksum Conn.init "u1" "A" true =
      .error (.sqliteError "disk I/O error") ∧
    (PyErr.sqliteError "disk I/O error").isStateError = false := by
  decide

/-- C3 (amended): only the constructor wraps store failures as
`StateError`; a failure in any query or mutation operation (`is_synced`,
`get_checksum`, `record_sync` or `remove_record` at any of their
statements, `get_all_records`, `count`) surfaces as the raw underlying
sqlite error. -/
theorem C3_error_typing (c : Conn) (u a cat path ck now : String) :
    (∃ msg, SyncState.stateInit true = .error (.stateError msg)) ∧
    SyncState.is_synced c u a true = .error (.sqliteError "disk I/O error") ∧
    SyncState.get_checksum c u a true = .error (.sqliteError "disk I/O error") ∧
    (∀ f1 f2 fc : Bool, (f1 || f2 || fc) = true →
      ∃ msg, (SyncState.record_sync c u a cat path ck now f1 f2 fc).1 =
        .error (.sqliteError msg)) ∧
    (∀ f1 f2 fc : Bool, (f1 || f2 || fc) = true →
      ∃ msg, (SyncState.remove_record c u a now f1 f2 fc).1 =
        .error (.sqliteError msg)) ∧
    SyncState.get_all_records c true = .error (.sqliteError "disk I/O error") ∧
    SyncState.count c true = .error (.sqliteError "disk I/O error") := by
  refine ⟨⟨"Failed to open state DB: unable to open database file", by decide⟩,
    rfl, rfl, ?_, ?_, rfl, rfl⟩
  · intro f1 f2 fc h
    cases f1 with
    | true => exact ⟨"disk I/O error", by simp [SyncState.record_sync, Conn.execute]⟩
    | false =>
      cases f2 with
      | true => exact ⟨"disk I/O error", by simp [SyncState.record_sync, Conn.execute]⟩
      | false =>
        cases fc with
        | true =>
          exact ⟨"disk I/O error",
            by simp [SyncState.record_sync, Conn.execute, Conn.commitNow]⟩
        | false => simp at h
  · intro f1 f2 fc h
    cases f1 with
    | true => exact ⟨"disk I/O error", by simp [SyncState.remove_record, Conn.execute]⟩
    | false =>
      cases f2 with
      | true => exact ⟨"disk I/O error", by simp [SyncState.remove_record, Conn.execute]⟩
      | false =>
        cases fc with
        | true =>
          exact ⟨"disk I/O error",
            by simp [SyncState.remove_record, Conn.execute, Conn.commitNow]⟩
        | false => simp at h

/-- Witness for the amended C3 at a concrete connection, discharging the
fault-schedule hypotheses. -/
theorem C3_error_typing_witness :
    (∃ msg, SyncState.stateInit true = .error (.stateError msg)) ∧
    (∃ msg, (SyncState.record_sync Conn.init "u1" "A" "c" "p" "ck" "t"
      false true false).1 = .error (.sqliteError msg)) ∧
    (∃ msg, (SyncState.remove_record Conn.init "u1" "A" "t"
      true false false).1 = .error (.sqliteError msg)) := by
  refine ⟨(C3_error_typing Conn.init "u1" "A" "c" "p" "ck" "t").1, ?_, ?_⟩
  · exact (C3_error_typing Conn.init "u1" "A" "c" "p" "ck" "t").2.2.2.1
      false true false (by decide)
  · exact (C3_error_typing Conn.init "u1" "A" "c" "p" "ck" "t").2.2.2.2.1
      true false false (by decide)

/-! ### State atomicity (C5) -/

/-- C5: atomicity fails across operations on the same open store.  A
`record_sync` whose audit-log insert fails raises, but its upsert stays
pending on the still-open implicit transaction (the source never rolls
back); the next successful `record_sync`'s `commit` then makes the failed
call's upsert durable — entry present, its audit entry missing forever.
The failed call did not leave persisted state unchanged. -/
theorem C5_failed_record_sync_partially_applies :
    (SyncState.record_sync Conn.init "u1" "A" "eagles" "p1" "ck1" "t1" false true false).1 =
      .error (.sqliteError "disk I/O error") ∧
    ((SyncState.record_sync (SyncState.record_sync Conn.init "u1" "A" "eagles" "p1" "ck1"
        "t1" false true false).2 "u2" "B" "sailing" "p2" "ck2" "t2"
        false false false).2).committed =
      ⟨[⟨"u1", "A", "eagles", "p1", "ck1", "t1"⟩, ⟨"u2", "B", "sailing", "p2", "ck2", "t2"⟩],
        [⟨"t2", "sync", "u2 -> p2"⟩]⟩ := by
  decide

/-! ### Orchestrator: idempotent sync (C1) and error propagation (C4) -/

/-- C1: syncing the same unchanged photo twice with `force = false` does
NOT skip on the second call.  The first call exports and records the
exported file's checksum (`exphash`); the second call recomputes the
SOURCE file's checksum (`srchash`) and compares it to the stored
`exphash` — they differ whenever the transform changes bytes, so the
second call exports again (`was_exported = true`), writes state again
(the audit log grows to 2), and leaves the store changed. -/
theorem C1_second_sync_reexports :
    (syncDemoOnce Conn.init "t1").bind (fun r1 =>
      (syncDemoOnce r1.2 "t2").map (fun r2 =>
        (r1.1.2, r2.1.2, r2.2.view.audit.length, decide (r2.2 = r1.2)))) =
      .ok (true, true, 2, false) := by
  decide

/-- C4: a `PathError` raised while processing a photo is not fatal for
the run: `except (ExportError, PhotoSyncError)` catches it because
`PathError` derives `PhotoSyncError`.  Here the first photo's filename
`evil..jpg` makes `render_output_path` raise `PathError`, yet the loop
returns successfully with `errors = 1` and still exports the second
photo (`exported = 1`) — the error is converted into a per-photo count
instead of propagating. -/
theorem C4_patherror_caught_not_fatal :
    (PyErr.pathError "x").isPhotoSyncError = true ∧
    processPhotos cfgDemo "eagles" "album-a" false "t1" Conn.init 0 0 0
      [⟨"u9", "evil..jpg", "Album A", "s9", "e9"⟩, photoDemo] =
      .ok ((1, 0, 1),
        ⟨⟨[⟨"u1", "Album A", "eagles", "eagles/album-a/IMG_1.jpg", "exphash", "t1"⟩],
          [⟨"t1", "sync", "u1 -> eagles/album-a/IMG_1.jpg"⟩]⟩, []⟩) := by
  refine ⟨by decide, by decide⟩
